import Mathlib

/-!
Shallow embedding of `src/ifs.py` (Infinite Fun Space).

Python floats are modelled as exact rationals (`ℚ`); the horizon/visibility
geometry, which uses `np.sqrt`, is modelled over the reals (`ℝ`).
`numpy` machine integers are `ℤ`.  Python's `assert` (which raises a fatal
`AssertionError`) and `IndexError` are modelled by `Option`/an explicit error
component: `none`/`some Err.IndexError` is a raised exception.

Python and numpy indexing semantics: an index `i` with `-n ≤ i < 0` wraps to
`n + i`; an index outside `[-n, n)` raises `IndexError`.  `int(x)` on a float
truncates toward zero.
-/

/-- A continuous 3-vector, as the numpy arrays of the source. -/
abbrev Vec3 (α : Type) : Type := α × α × α

/-- Componentwise vector addition (numpy `+` on 3-vectors). -/
def add3 (a b : Vec3 ℚ) : Vec3 ℚ := (a.1 + b.1, a.2.1 + b.2.1, a.2.2 + b.2.2)

/-- Componentwise vector subtraction (numpy `-` on 3-vectors). -/
def sub3 (a b : Vec3 ℚ) : Vec3 ℚ := (a.1 - b.1, a.2.1 - b.2.1, a.2.2 - b.2.2)

/-- Scalar times vector (numpy broadcasting of `vector * scalar`). -/
def smul3 (c : ℚ) (v : Vec3 ℚ) : Vec3 ℚ := (c * v.1, c * v.2.1, c * v.2.2)

/-- `np.sum(np.abs(v))`: the L1 magnitude. -/
def absSum3 (v : Vec3 ℚ) : ℚ := |v.1| + |v.2.1| + |v.2.2|

/-- The squared Euclidean norm `x^2 + y^2 + z^2` of a 3-vector. -/
def sqNorm3 (v : Vec3 ℚ) : ℚ := v.1 ^ 2 + v.2.1 ^ 2 + v.2.2 ^ 2

/-- The source's comparison `np.linalg.norm(v) < c`, i.e. `√(sqNorm3 v) < c`
over the reals, rendered decidably over `ℚ`: for `c ≤ 0` the comparison is
false (a Euclidean norm is nonnegative), and for `0 < c` it is equivalent to
comparing the squares.  `normLt3_iff_sqrt` below proves this rendering equal
to the literal square-root comparison. -/
def normLt3 (v : Vec3 ℚ) (c : ℚ) : Prop := 0 < c ∧ sqNorm3 v < c ^ 2

instance (v : Vec3 ℚ) (c : ℚ) : Decidable (normLt3 v c) := by
  unfold normLt3; infer_instance

/-- Python `int()` on a float: truncation toward zero. -/
def truncQ (q : ℚ) : ℤ := if 0 ≤ q then ⌊q⌋ else ⌈q⌉

/-- Python / numpy indexing into an axis of length `n`: indices in `[-n, 0)`
wrap to `n + i`; indices outside `[-n, n)` raise `IndexError` (here `none`). -/
def pyIdx (n : ℕ) (i : ℤ) : Option ℕ :=
  if 0 ≤ i ∧ i < (n : ℤ) then some i.toNat
  else if -(n : ℤ) ≤ i ∧ i < 0 then some ((n : ℤ) + i).toNat
  else none

/-- The only exception the modelled code can raise besides `AssertionError`
(which is modelled by `Option`): Python's `IndexError`. -/
inductive Err : Type
  | IndexError
deriving DecidableEq

/-- A board piece as the scans over `Framework.pieces_List` read it:
its id and its continuous position. -/
structure PieceRef : Type where
  piece_id : ℤ
  position : Vec3 ℚ
deriving DecidableEq

/-- The `Rocket` piece (`ifs.py` lines 103-186).  `Piece.__init__` gives
`piece_id` and `position`; `has_destination` starts `False` and
`Piece.move_Order` sets `destination` (absent until then: the placeholder
value is only read when `has_destination` is true in the source's guard
structure). -/
structure Rocket : Type where
  piece_id : ℤ
  position : Vec3 ℚ
  speed : Vec3 ℚ
  mass : ℚ
  final_mass : ℚ
  exit_velocity : ℚ
  mass_flow_rate : ℚ
  has_destination : Bool
  destination : Vec3 ℚ
deriving DecidableEq

/-- `Rocket.__init__` with the source's default arguments
(`mass = 1.0`, `final_mass = 0.1`, `exit_velocity = 1.0`,
`mass_flow_rate = 0.001`) — the only way a `Rocket` is ever constructed in
the program (`Radar.update`, line 229). -/
def mk_Rocket (piece_id : ℤ) (position speed : Vec3 ℚ) : Rocket :=
  { piece_id := piece_id
    position := position
    speed := speed
    mass := 1
    final_mass := 1 / 10
    exit_velocity := 1
    mass_flow_rate := 1 / 1000
    has_destination := false
    destination := (0, 0, 0) }

/-- `Piece.move_Order` (lines 85-93): record the destination. -/
def Rocket.move_Order (rk : Rocket) (dest : Vec3 ℚ) : Rocket :=
  { rk with destination := dest, has_destination := true }

/-- `Rocket.new_Position` (lines 147-171).  `thrust = exit_velocity *
mass_flow_rate`; `assert 0 < mass_flow_rate` and
`assert mass_flow_rate < mass` (a failed assert raises: `none`);
`acceleration = thrust / mass`; with a destination whose L1 direction
magnitude is positive, scale the direction to an L1 unit vector, and while
`mass > final_mass` accelerate along it and burn `mass_flow_rate`; finally
`position += speed` unconditionally. -/
def Rocket.new_Position (rk : Rocket) : Option Rocket :=
  let thrust := rk.exit_velocity * rk.mass_flow_rate
  if 0 < rk.mass_flow_rate ∧ rk.mass_flow_rate < rk.mass then
    let acceleration := thrust / rk.mass
    let rk1 :=
      if rk.has_destination then
        let direction := sub3 rk.destination rk.position
        let sum_direction := absSum3 direction
        if 0 < sum_direction then
          let unit := smul3 (1 / sum_direction) direction
          if rk.final_mass < rk.mass then
            { rk with
                speed := add3 rk.speed (smul3 acceleration unit)
                mass := rk.mass - rk.mass_flow_rate }
          else rk
        else rk
      else rk
    some { rk1 with position := add3 rk1.position rk1.speed }
  else none

/-- `Rocket.collision_Detection` (lines 173-186): the computed `kill` flag,
squared Euclidean separation against `blast_radius^2` with
`blast_radius = 0.5`.  The method's body then does nothing (`pass`) beyond
logging, so it has no effect on any state. -/
def Rocket.collision_Detection (rk : Rocket) (p : PieceRef) : Prop :=
  (rk.position.1 - p.position.1) ^ 2 + (rk.position.2.1 - p.position.2.1) ^ 2 +
      (rk.position.2.2 - p.position.2.2) ^ 2 < (1 / 2 : ℚ) ^ 2

/-- The pieces `Rocket.update` (lines 134-145) passes to
`collision_Detection`: every piece of the global pieces list whose
`piece_id` differs from the rocket's own. -/
def Rocket.checked_Targets (rk : Rocket) (pieces : List PieceRef) : List PieceRef :=
  pieces.filter (fun p => p.piece_id != rk.piece_id)

/-- `Rocket.update` (lines 134-145): `new_Position`, then the collision scan
over the global pieces list.  `collision_Detection` ends in `pass` (its
`kill` flag is only logged), so the scan changes no state;
`checked_Targets` above records which pieces it examines. -/
def Rocket.update (rk : Rocket) (_pieces : List PieceRef) : Option Rocket :=
  rk.new_Position

/-- Iterated `Rocket.update`: `updates pieces n` performs `n` consecutive
update calls, propagating a raised `AssertionError` (`none`). -/
def Rocket.updates (pieces : List PieceRef) : ℕ → Rocket → Option Rocket
  | 0, rk => some rk
  | Nat.succ n, rk => (rk.update pieces).bind (Rocket.updates pieces n)

/-- The `Radar` piece (lines 188-270): visibility list, mirrored
position/speed, launched-rocket list and the launch counter
`total_rockets` (initially 1). -/
structure Radar : Type where
  piece_id : ℤ
  position : Vec3 ℚ
  speed : Vec3 ℚ
  visible_pieces : List PieceRef
  rocket_list : List Rocket
  total_rockets : ℤ
deriving DecidableEq

/-- `Radar.__init__` (lines 192-211). -/
def mk_Radar (piece_id : ℤ) (position speed : Vec3 ℚ) : Radar :=
  { piece_id := piece_id
    position := position
    speed := speed
    visible_pieces := []
    rocket_list := []
    total_rockets := 1 }

/-- The rocket constructed and targeted in `Radar.update` (lines 229-235):
`Rocket(self.piece_id, self.Framework, self.position, self.speed)` with all
default arguments, then `rocket.move_Order(piece.position)`. -/
def Radar.launch_Rocket (rd : Radar) (t : PieceRef) : Rocket :=
  (mk_Rocket rd.piece_id rd.position rd.speed).move_Order t.position

/-- The launch loop of `Radar.update` (lines 227-237): for each visible
piece, if `0 < total_rockets` construct a targeted rocket and append it to
`rocket_list`; in every case decrement `total_rockets`. -/
def Radar.launch_Pass (rd : Radar) (visible : List PieceRef) : Radar :=
  visible.foldl
    (fun (rd : Radar) (t : PieceRef) =>
      if 0 < rd.total_rockets then
        { rd with
            rocket_list := rd.rocket_list ++ [rd.launch_Rocket t]
            total_rockets := rd.total_rockets - 1 }
      else { rd with total_rockets := rd.total_rockets - 1 })
    rd

/-- `Radar.update` (lines 213-240) given the recomputed visibility list
(first loop: `visible_pieces` is rebuilt from the world's pieces by the
id-filter and `is_Visible`; it enters here as `visible`) and the pieces list
the rockets' collision scans read: store the list, run the launch loop, then
call `update` on every rocket of `rocket_list` (an assert failure in one
propagates: `none`). -/
def Radar.update_With (rd : Radar) (visible pieces : List PieceRef) : Option Radar :=
  let rd1 := { rd with visible_pieces := visible }
  let rd2 := rd1.launch_Pass visible
  (rd2.rocket_list.mapM (fun rk => Rocket.update rk pieces)).map
    (fun rl => { rd2 with rocket_list := rl })

/-- The `Ship` piece (lines 272-345): carries a `Radar` constructed with the
ship's own id, position and speed; `acceleration = 0.0001`,
`top_speed = 0.001`. -/
structure Ship : Type where
  piece_id : ℤ
  position : Vec3 ℚ
  speed : Vec3 ℚ
  acceleration : ℚ
  top_speed : ℚ
  has_destination : Bool
  destination : Vec3 ℚ
  radar : Radar
deriving DecidableEq

/-- `Ship.__init__` (lines 276-303) with the source's default arguments. -/
def mk_Ship (piece_id : ℤ) (position speed : Vec3 ℚ) : Ship :=
  { piece_id := piece_id
    position := position
    speed := speed
    acceleration := 1 / 10000
    top_speed := 1 / 1000
    has_destination := false
    destination := (0, 0, 0)
    radar := mk_Radar piece_id position speed }

/-- `Piece.move_Order` on a ship. -/
def Ship.move_Order (sh : Ship) (dest : Vec3 ℚ) : Ship :=
  { sh with destination := dest, has_destination := true }

/-- The `Framework` shared state (lines 48-65): grid dimensions, the
occupancy `board_Map` (every cell initially `-1`), the pieces list and the
id allocator.  The `threading.BoundedSemaphore` guard serialises the
mutations modelled below; the embedding is of the guarded sequential
behaviour. -/
structure Framework : Type where
  max_x : ℕ
  max_y : ℕ
  max_z : ℕ
  board_Map : ℕ × ℕ × ℕ → ℤ
  pieces_List : List Ship
  next_ID : ℤ

/-- A guarded read `board_Map[x, y, z]` with numpy indexing on each axis. -/
def Framework.board_Get (fr : Framework) (c : ℤ × ℤ × ℤ) : Option ℤ :=
  match pyIdx fr.max_x c.1, pyIdx fr.max_y c.2.1, pyIdx fr.max_z c.2.2 with
  | some x, some y, some z => some (fr.board_Map (x, y, z))
  | _, _, _ => none

/-- A guarded write `board_Map[x, y, z] = v` with numpy indexing on each
axis; `none` is a raised `IndexError`. -/
def Framework.board_Set (fr : Framework) (c : ℤ × ℤ × ℤ) (v : ℤ) : Option Framework :=
  match pyIdx fr.max_x c.1, pyIdx fr.max_y c.2.1, pyIdx fr.max_z c.2.2 with
  | some x, some y, some z =>
      some { fr with board_Map := fun p => if p = (x, y, z) then v else fr.board_Map p }
  | _, _, _ => none

/-- `Ship.new_Position` (lines 305-333).  Remember the truncated old cell;
with a destination of positive L1 direction magnitude, either accelerate by
`direction * acceleration` (speed below `top_speed`) or set
`speed = direction * top_speed` — the source's `# unit vector` comment
notwithstanding, `direction` is NOT divided by `sum_direction` here (compare
`Rocket.new_Position`, line 166); then `position += speed`; finally, under
the lock, clear the old truncated cell and write `piece_id` into the new
truncated cell.  A raised `IndexError` from a board write is the `some Err`
component; the ship state and the writes made before the raise are kept, as
Python's in-place mutation keeps them. -/
def Ship.new_Position (sh : Ship) (fr : Framework) : (Ship × Framework) × Option Err :=
  let temp_x := truncQ sh.position.1
  let temp_y := truncQ sh.position.2.1
  let temp_z := truncQ sh.position.2.2
  let sh1 :=
    if sh.has_destination then
      let direction := sub3 sh.destination sh.position
      let sum_direction := absSum3 direction
      if 0 < sum_direction then
        if normLt3 sh.speed sh.top_speed then
          { sh with speed := add3 sh.speed (smul3 sh.acceleration direction) }
        else { sh with speed := smul3 sh.top_speed direction }
      else sh
    else sh
  let sh2 := { sh1 with position := add3 sh1.position sh1.speed }
  let board : Framework × Option Err :=
    match fr.board_Set (temp_x, temp_y, temp_z) (-1) with
    | none => (fr, some Err.IndexError)
    | some fr1 =>
        match fr1.board_Set
            (truncQ sh2.position.1, truncQ sh2.position.2.1, truncQ sh2.position.2.2)
            sh.piece_id with
        | none => (fr1, some Err.IndexError)
        | some fr2 => (fr2, none)
  ((sh2, board.1), board.2)

/-- `Ship.update` (lines 335-345).  The first statement of the source is
`self.new_Position` — an attribute reference WITHOUT a call (no
parentheses, line 342) — so it has no effect; then the radar's position and
speed are mirrored from the ship and `radar.update()` runs (parametrised
here, as in `Radar.update_With`, by the recomputed visibility list and the
pieces list the scans read). -/
def Ship.update (sh : Ship) (fr : Framework) (visible pieces : List PieceRef) :
    Option (Ship × Framework) :=
  let radar1 := { sh.radar with position := sh.position, speed := sh.speed }
  (radar1.update_With visible pieces).map (fun rd => ({ sh with radar := rd }, fr))

/-- `Logic.move_Order` (lines 598-615): read `board_Map[old]` under the
lock, index `pieces_List` with the id found there (Python list indexing:
`-1`, the empty-cell sentinel, wraps to the LAST element), and give that
piece the move order.  There is no emptiness or bounds check; `IndexError`
(out-of-range board read, or list index out of range — e.g. `-1` on an
empty list) is the error component. -/
def Logic.move_Order (fr : Framework) (old : ℤ × ℤ × ℤ) (dest : Vec3 ℚ) :
    Framework × Option Err :=
  match fr.board_Get old with
  | none => (fr, some Err.IndexError)
  | some piece_ID =>
      match pyIdx fr.pieces_List.length piece_ID with
      | none => (fr, some Err.IndexError)
      | some j =>
          match fr.pieces_List.get? j with
          | none => (fr, some Err.IndexError)
          | some p =>
              ({ fr with pieces_List := fr.pieces_List.set j (p.move_Order dest) }, none)

/-- `Logic.add` (lines 617-629): under the lock, append
`Ship(next_ID, position, speed)` to `pieces_List`, write `next_ID` into
`board_Map[int x, int y, int z]` (numpy indexing: negative coordinates
wrap, out-of-range raises), then increment `next_ID`.  The append precedes
the board write, so a raised `IndexError` leaves the piece appended and
`next_ID` unincremented.  There is no bounds check. -/
def Logic.add (fr : Framework) (x y z : ℤ) (speed : Vec3 ℚ) : Framework × Option Err :=
  let position : Vec3 ℚ := ((x : ℚ), (y : ℚ), (z : ℚ))
  let fr1 := { fr with pieces_List := fr.pieces_List ++ [mk_Ship fr.next_ID position speed] }
  match fr1.board_Set (x, y, z) fr.next_ID with
  | none => (fr1, some Err.IndexError)
  | some fr2 => ({ fr2 with next_ID := fr.next_ID + 1 }, none)

/-- `planet_radius = 6371` (line 251). -/
def planet_radius : ℝ := 6371

/-- `radar_height = 0.005` (line 252), the sensor height offset. -/
noncomputable def radar_height0 : ℝ := 1 / 200

/-- The sensor position with its z-coordinate raised by the offset
(lines 254-255). -/
noncomputable def radar_Position (self : Vec3 ℝ) : Vec3 ℝ :=
  (self.1, self.2.1, self.2.2 + radar_height0)

/-- `np.linalg.norm(a - b)`: the Euclidean 3-space distance (line 257). -/
noncomputable def dist3 (a b : Vec3 ℝ) : ℝ :=
  Real.sqrt ((a.1 - b.1) ^ 2 + (a.2.1 - b.2.1) ^ 2 + (a.2.2 - b.2.2) ^ 2)

/-- `piece_horizon = np.sqrt(2 * planet_radius * piece_height)` (line 262). -/
noncomputable def piece_horizon (h : ℝ) : ℝ := Real.sqrt (2 * planet_radius * h)

/-- `radar_horizon = np.sqrt(2 * planet_radius * radar_height +
radar_height**2)` (line 263). -/
noncomputable def radar_horizon (h : ℝ) : ℝ :=
  Real.sqrt (2 * planet_radius * h + h ^ 2)

/-- `Radar.is_Visible` (lines 242-270), on the sensor's and the target's
positions: visible iff the distance from the raised sensor position to the
target is strictly below the sum of the two horizon distances. -/
def is_Visible (self piece : Vec3 ℝ) : Prop :=
  dist3 piece (radar_Position self) <
    piece_horizon piece.2.2 + radar_horizon (radar_Position self).2.2

/-- The invariant every rocket the program constructs maintains: the default
`final_mass` and `mass_flow_rate`, and a remaining fuel mass that is a
nonnegative integer multiple of `mass_flow_rate` (initially
`1 = 1/10 + 900 * (1/1000)`). -/
def RInv (rk : Rocket) : Prop :=
  rk.final_mass = 1 / 10 ∧ rk.mass_flow_rate = 1 / 1000 ∧
    ∃ k : ℕ, rk.mass = 1 / 10 + (k : ℚ) * (1 / 1000)

/-! Concrete fixtures used by the counterexamples and witnesses below. -/

/-- A ship with nonzero speed `(1, 0, 0)` at position `(1, 5, 0)` and a
pending destination, for exercising `Ship.update`. -/
def shipC1 : Ship :=
  { mk_Ship 0 (1, 5, 0) (1, 0, 0) with has_destination := true, destination := (7, 2, 0) }

/-- A framework holding exactly `shipC1`, its cell occupied on the board. -/
def fwC1 : Framework :=
  { max_x := 10, max_y := 10, max_z := 10
    board_Map := fun p => if p = (1, 5, 0) then 0 else -1
    pieces_List := [shipC1]
    next_ID := 1 }

/-- A ship at the origin moving at L2 speed `1/500` (at its `top_speed`
regime boundary: `1/500 ≥ 1/1000`) toward the far destination
`(100, 0, 0)`. -/
def shC2 : Ship :=
  { mk_Ship 0 (0, 0, 0) (1 / 500, 0, 0) with
      has_destination := true, destination := (100, 0, 0) }

/-- A framework for `shC2`'s position update. -/
def fwC2 : Framework :=
  { max_x := 10, max_y := 10, max_z := 10
    board_Map := fun p => if p = (0, 0, 0) then 0 else -1
    pieces_List := [shC2]
    next_ID := 1 }

/-- A 2x2x2 world holding one ship at cell `(0, 0, 0)`; every other cell
holds the empty sentinel `-1`. -/
def fwC3 : Framework :=
  { max_x := 2, max_y := 2, max_z := 2
    board_Map := fun p => if p = (0, 0, 0) then 0 else -1
    pieces_List := [mk_Ship 0 (0, 0, 0) (0, 0, 0)]
    next_ID := 1 }

/-- An empty 2x2x2 world. -/
def fwC4 : Framework :=
  { max_x := 2, max_y := 2, max_z := 2
    board_Map := fun _ => -1
    pieces_List := []
    next_ID := 0 }

/-- A radar with one remaining rocket, as `Radar.__init__` creates it. -/
def rdC5 : Radar := mk_Radar 3 (0, 0, 0) (0, 0, 0)

/-- A first visible target. -/
def tgtA : PieceRef := { piece_id := 1, position := (1, 1, 1) }

/-- A second visible target. -/
def tgtB : PieceRef := { piece_id := 2, position := (2, 2, 2) }

/-- The rocket the program's radar constructs at the origin, targeted at
`(1, 0, 0)`. -/
def rkC6 : Rocket := (mk_Rocket 0 (0, 0, 0) (0, 0, 0)).move_Order (1, 0, 0)

/-- `rkC6` after one update: accelerated along the unit direction by
`acceleration = (1 * 1/1000) / 1`, mass burned by `1/1000`, position
integrated. -/
def rkC6' : Rocket :=
  { piece_id := 0
    position := (1 / 1000, 0, 0)
    speed := (1 / 1000, 0, 0)
    mass := 999 / 1000
    final_mass := 1 / 10
    exit_velocity := 1
    mass_flow_rate := 1 / 1000
    has_destination := true
    destination := (1, 0, 0) }

/-- A fuel-valid rocket with no destination, for the precondition witness. -/
def rkC7 : Rocket := mk_Rocket 0 (0, 0, 0) (0, 0, 0)

/-- A radar about to launch, for the launcher-exclusion witness. -/
def rdC10 : Radar := mk_Radar 7 (4, 4, 0) (0, 0, 0)

/-- The target `rdC10` fires at. -/
def tgtC10 : PieceRef := { piece_id := 9, position := (1, 0, 0) }

/-- The launching ship as the collision scans read it: it shares
`piece_id = 7` with `rdC10` and with the rocket the radar launches. -/
def launcherC10 : PieceRef := { piece_id := 7, position := (4, 4, 0) }

/-! ## Theorems -/

/-- Faithfulness of the decidable rendering `normLt3`: it is exactly the
source's real comparison `np.linalg.norm v < c`. -/
theorem normLt3_iff_sqrt (v : Vec3 ℚ) (c : ℚ) :
    normLt3 v c ↔
      Real.sqrt ((v.1 : ℝ) ^ 2 + (v.2.1 : ℝ) ^ 2 + (v.2.2 : ℝ) ^ 2) < (c : ℝ) := by
  unfold normLt3 sqNorm3
  rcases le_or_lt c 0 with hc | hc
  · constructor
    · rintro ⟨h0, -⟩; exact absurd h0 (not_lt.mpr hc)
    · intro h
      exact absurd (lt_of_le_of_lt (Real.sqrt_nonneg _) h)
        (not_lt.mpr (by exact_mod_cast hc))
  · rw [Real.sqrt_lt' (by exact_mod_cast hc)]
    constructor
    · rintro ⟨-, h⟩; exact_mod_cast h
    · intro h; exact ⟨hc, by exact_mod_cast h⟩

/-- Claim C8: for every sensor and every other piece, `is_Visible` holds iff
the Euclidean 3-space distance from the sensor position raised by the sensor
height offset (`1/200`) to the target position is strictly less than
`√(2 * 6371 * target.z) + √(2 * 6371 * h + h^2)` with
`h = self.z + 1/200`. -/
theorem is_Visible_iff_horizon_formula (self piece : Vec3 ℝ) :
    is_Visible self piece ↔
      Real.sqrt ((piece.1 - self.1) ^ 2 + (piece.2.1 - self.2.1) ^ 2 +
          (piece.2.2 - (self.2.2 + 1 / 200)) ^ 2) <
        Real.sqrt (2 * 6371 * piece.2.2) +
          Real.sqrt (2 * 6371 * (self.2.2 + 1 / 200) + (self.2.2 + 1 / 200) ^ 2) :=
  Iff.rfl

/-- Claim C9: for pieces whose positions have equal z-coordinates, the
visibility predicate is symmetric. -/
theorem is_Visible_symm_equal_heights (a b : Vec3 ℝ) (h : a.2.2 = b.2.2) :
    (is_Visible a b ↔ is_Visible b a) := by
  unfold is_Visible dist3 radar_Position piece_horizon radar_horizon
  rw [h]
  ring_nf

/-- Witness for C9 at the concrete equal-height pair `(0,0,0)`, `(1,0,0)`. -/
theorem is_Visible_symm_equal_heights_witness :
    (is_Visible (0, 0, 0) (1, 0, 0) ↔ is_Visible (1, 0, 0) (0, 0, 0)) :=
  is_Visible_symm_equal_heights (0, 0, 0) (1, 0, 0) rfl

/-- Claim C7: a Projectile update raises the fatal assertion failure iff
`massFlowRate` is not strictly between `0` and the current mass; when the
precondition holds the update proceeds and the rate is never
silently clamped. -/
theorem rocket_update_assert_iff (rk : Rocket) (pieces : List PieceRef) :
    (rk.update pieces = none ↔
        ¬(0 < rk.mass_flow_rate ∧ rk.mass_flow_rate < rk.mass)) ∧
      ((rk.update pieces).getD rk).mass_flow_rate = rk.mass_flow_rate := by
  simp only [Rocket.update, Rocket.new_Position]
  constructor
  · split_ifs with hpre
    · simp [hpre]
    · simp [hpre]
  · split_ifs <;> simp

/-- Claim C1 (code evaluation): `Ship.update` leaves the ship's position and
speed and the whole framework (board included) unchanged, because the source
references `self.new_Position` without calling it (line 342) — here on a
ship with nonzero speed `(1,0,0)` and a pending destination. -/
theorem ship_update_does_not_move :
    Ship.update shipC1 fwC1 [] [] = some (shipC1, fwC1) ∧
      shipC1.speed = (1, 0, 0) ∧ shipC1.position = (1, 5, 0) ∧
      shipC1.has_destination = true :=
  ⟨rfl, rfl, rfl, rfl⟩

/-- Claim C2 (code evaluation): in the clamping regime of
`Ship.new_Position` (current L2 speed `1/500` not below `top_speed =
1/1000`), the resulting speed is `direction * top_speed` with the direction
UNnormalized: `(1/10, 0, 0)`, whose L2 magnitude exceeds `top_speed`
(its square `1/100` exceeds `top_speed^2 = 1/1000000`). -/
theorem ship_regime_exceeds_top_speed :
    ((shC2.new_Position fwC2).1.1.speed = (1 / 10, 0, 0)) ∧
      shC2.top_speed ^ 2 < sqNorm3 ((shC2.new_Position fwC2).1.1.speed) ∧
      0 < shC2.top_speed := by
  have h : (shC2.new_Position fwC2).1.1.speed = (1 / 10, 0, 0) := by
    simp only [Ship.new_Position, shC2, fwC2, mk_Ship, sub3, absSum3, smul3, add3,
      normLt3, sqNorm3]
    norm_num
  refine ⟨h, ?_, ?_⟩
  · rw [h]; simp [shC2, mk_Ship, sqNorm3]; norm_num
  · simp [shC2, mk_Ship]

/-- Counterexample to claim C3: a move order on the empty (sentinel `-1`)
cell `(1,1,1)` does not fail and is not dropped — the sentinel `-1`
Python-indexes the last list entry, so the sole ship receives the
destination `(3,3,3)`. -/
theorem move_order_empty_cell_hits_last :
    (Logic.move_Order fwC3 (1, 1, 1) (3, 3, 3)).2 = none ∧
      (Logic.move_Order fwC3 (1, 1, 1) (3, 3, 3)).1.pieces_List.map
          Ship.has_destination = [true] ∧
      (Logic.move_Order fwC3 (1, 1, 1) (3, 3, 3)).1.pieces_List.map
          Ship.destination = [(3, 3, 3)] := by
  refine ⟨?_, ?_, ?_⟩ <;>
    simp [Logic.move_Order, fwC3, Framework.board_Get, pyIdx, mk_Ship, mk_Radar,
      Ship.move_Order]

/-- Counterexample to claim C4: an `add` at the negative coordinate
`x = -1` in a 2x2x2 world fails with no error, appends the entity, writes
its id into the wrapped cell `(1, 0, 0)` and increments the id counter —
the world is changed and no `OutOfBounds` is reported. -/
theorem add_negative_coordinate_applied :
    (Logic.add fwC4 (-1) 0 0 (0, 0, 0)).2 = none ∧
      (Logic.add fwC4 (-1) 0 0 (0, 0, 0)).1.pieces_List.length = 1 ∧
      (Logic.add fwC4 (-1) 0 0 (0, 0, 0)).1.board_Map (1, 0, 0) = 0 ∧
      (Logic.add fwC4 (-1) 0 0 (0, 0, 0)).1.next_ID = 1 := by
  refine ⟨?_, ?_, ?_, ?_⟩ <;>
    simp [Logic.add, fwC4, Framework.board_Set, pyIdx, mk_Ship, mk_Radar]

/-- Claim C3 (amended): a move order on an in-range cell holding the empty
sentinel `-1` does not fail and is not dropped — the sentinel indexes the
pieces list at `-1`, which Python wraps to the last entry, so the LAST
entity in the list receives the destination.  No `NoEntityAtCell` error
exists in the code. -/
theorem move_order_wraps_to_last (fr : Framework) (old : ℤ × ℤ × ℤ) (dest : Vec3 ℚ)
    (p : Ship) (hcell : fr.board_Get old = some (-1))
    (hp : fr.pieces_List.get? (fr.pieces_List.length - 1) = some p) :
    Logic.move_Order fr old dest =
      ({ fr with pieces_List :=
          fr.pieces_List.set (fr.pieces_List.length - 1) (p.move_Order dest) }, none) := by
  obtain ⟨hlt, -⟩ := List.get?_eq_some.mp hp
  have hpos : 0 < fr.pieces_List.length := by omega
  have hidx : pyIdx fr.pieces_List.length (-1) = some (fr.pieces_List.length - 1) := by
    unfold pyIdx
    rw [if_neg (by omega), if_pos (by omega)]
    congr 1
    omega
  simp only [Logic.move_Order, hcell, hidx, hp]

/-- Witness for C3's amended claim: in the one-ship world `fwC3`, a move
order on the empty cell `(1,1,1)` lands on the sole (last) ship. -/
theorem move_order_wraps_to_last_witness :
    Logic.move_Order fwC3 (1, 1, 1) (5, 5, 5) =
      ({ fwC3 with pieces_List := fwC3.pieces_List.set (fwC3.pieces_List.length - 1) ((mk_Ship 0 (0, 0, 0) (0, 0, 0)).move_Order (5, 5, 5)) }, none) :=
  move_order_wraps_to_last fwC3 (1, 1, 1) (5, 5, 5) (mk_Ship 0 (0, 0, 0) (0, 0, 0))
    (by simp [fwC3, Framework.board_Get, pyIdx]) (by simp [fwC3])

/-- Claim C4 (amended): neither bounds check nor `OutOfBounds` error exists.
With in-range `y`, `z`: an `add` whose `x` is negative but at least
`-max_x` is applied at the wrapped cell `(max_x + x, y, z)` — the entity is
appended, its id written there, `next_ID` incremented, no error reported;
an `add` whose `x` is at least `max_x` raises `IndexError` from the board
write, AFTER the entity was already appended (and without incrementing
`next_ID`).  Either way the world changes. -/
theorem add_has_no_bounds_check (fr : Framework) (x y z : ℤ) (sp : Vec3 ℚ)
    (hy : 0 ≤ y ∧ y < (fr.max_y : ℤ)) (hz : 0 ≤ z ∧ z < (fr.max_z : ℤ)) :
    (-(fr.max_x : ℤ) ≤ x ∧ x < 0 →
      Logic.add fr x y z sp =
        ({ fr with
            pieces_List :=
              fr.pieces_List ++ [mk_Ship fr.next_ID ((x : ℚ), (y : ℚ), (z : ℚ)) sp]
            board_Map := fun c =>
              if c = (((fr.max_x : ℤ) + x).toNat, y.toNat, z.toNat) then fr.next_ID
              else fr.board_Map c
            next_ID := fr.next_ID + 1 }, none)) ∧
    ((fr.max_x : ℤ) ≤ x →
      Logic.add fr x y z sp =
        ({ fr with
            pieces_List :=
              fr.pieces_List ++ [mk_Ship fr.next_ID ((x : ℚ), (y : ℚ), (z : ℚ)) sp] },
          some Err.IndexError)) := by
  have hy1 : pyIdx fr.max_y y = some y.toNat := by
    unfold pyIdx; rw [if_pos (by omega)]
  have hz1 : pyIdx fr.max_z z = some z.toNat := by
    unfold pyIdx; rw [if_pos (by omega)]
  constructor
  · intro hx
    have hx1 : pyIdx fr.max_x x = some (((fr.max_x : ℤ) + x).toNat) := by
      unfold pyIdx; rw [if_neg (by omega), if_pos (by omega)]
    simp only [Logic.add, Framework.board_Set, hx1, hy1, hz1]
  · intro hx
    have hx1 : pyIdx fr.max_x x = none := by
      unfold pyIdx; rw [if_neg (by omega), if_neg (by omega)]
    simp only [Logic.add, Framework.board_Set, hx1, hy1, hz1]

/-- Witness for C4's amended claim at the concrete world `fwC4` and the
negative coordinate `x = -1`. -/
theorem add_has_no_bounds_check_witness :
    Logic.add fwC4 (-1) 0 0 (0, 0, 0) =
      ({ fwC4 with
          pieces_List :=
            fwC4.pieces_List ++
              [mk_Ship fwC4.next_ID (((-1 : ℤ) : ℚ), ((0 : ℤ) : ℚ), ((0 : ℤ) : ℚ)) (0, 0, 0)]
          board_Map := fun c =>
            if c = (((fwC4.max_x : ℤ) + -1).toNat, (0 : ℤ).toNat, (0 : ℤ).toNat) then
              fwC4.next_ID
            else fwC4.board_Map c
          next_ID := fwC4.next_ID + 1 }, none) :=
  (add_has_no_bounds_check fwC4 (-1) 0 0 (0, 0, 0) (by norm_num [fwC4])
      (by norm_num [fwC4])).1 (by norm_num [fwC4])

/-- One step of the launch loop preserves the radar fields the constructed
rockets read. -/
theorem launch_Rocket_congr (rd rd' : Radar) (h1 : rd'.piece_id = rd.piece_id)
    (h2 : rd'.position = rd.position) (h3 : rd'.speed = rd.speed) :
    rd'.launch_Rocket = rd.launch_Rocket := by
  funext t
  unfold Radar.launch_Rocket
  rw [h1, h2, h3]

/-- The launch loop never changes the radar's id, position or speed. -/
theorem launch_Pass_fields (rd : Radar) (visible : List PieceRef) :
    (rd.launch_Pass visible).piece_id = rd.piece_id ∧
      (rd.launch_Pass visible).position = rd.position ∧
      (rd.launch_Pass visible).speed = rd.speed := by
  induction visible generalizing rd with
  | nil => exact ⟨rfl, rfl, rfl⟩
  | cons t ts ih =>
      unfold Radar.launch_Pass at ih ⊢
      rw [List.foldl_cons]
      split_ifs <;> exact ih _

/-- The launch counter is decremented once per visible target, launch or
not. -/
theorem launch_Pass_total (rd : Radar) (visible : List PieceRef) :
    (rd.launch_Pass visible).total_rockets =
      rd.total_rockets - visible.length := by
  induction visible generalizing rd with
  | nil => simp [Radar.launch_Pass]
  | cons t ts ih =>
      unfold Radar.launch_Pass at ih ⊢
      rw [List.foldl_cons]
      split_ifs <;> rw [ih] <;> simp <;> omega

/-- The rockets appended by the launch loop: one targeted rocket for each of
the first `total_rockets.toNat` visible targets. -/
theorem launch_Pass_list (rd : Radar) (visible : List PieceRef) :
    (rd.launch_Pass visible).rocket_list =
      rd.rocket_list ++ (visible.take rd.total_rockets.toNat).map rd.launch_Rocket := by
  induction visible generalizing rd with
  | nil => simp [Radar.launch_Pass]
  | cons t ts ih =>
      unfold Radar.launch_Pass at ih ⊢
      rw [List.foldl_cons]
      by_cases h : 0 < rd.total_rockets
      · rw [if_pos h, ih]
        have hlr : ({ rd with rocket_list := rd.rocket_list ++ [rd.launch_Rocket t], total_rockets := rd.total_rockets - 1 } : Radar).launch_Rocket = rd.launch_Rocket :=
          launch_Rocket_congr rd _ rfl rfl rfl
        rw [hlr]
        dsimp only
        have ht : rd.total_rockets.toNat = (rd.total_rockets - 1).toNat + 1 := by omega
        rw [ht, List.take_succ_cons, List.map_cons, List.append_assoc, List.singleton_append]
      · rw [if_neg h, ih]
        have hlr : ({ rd with total_rockets := rd.total_rockets - 1 } : Radar).launch_Rocket = rd.launch_Rocket :=
          launch_Rocket_congr rd _ rfl rfl rfl
        rw [hlr]
        dsimp only
        have ht : rd.total_rockets.toNat = 0 := by omega
        have ht1 : (rd.total_rockets - 1).toNat = 0 := by omega
        rw [ht, ht1]
        simp

/-- Claim C5: for a Sensor update over `k` currently visible targets, a
Projectile with destination equal to the target's current position is
constructed and appended for exactly the first `max 0 (min k
remainingLaunches)` targets, while `total_rockets` is decremented once per
visible target regardless; so with one remaining launch and two targets,
one rocket launches and the counter ends at `-1` (the witnessed
instance). -/
theorem radar_launch_counts (rd : Radar) (visible : List PieceRef) :
    (rd.launch_Pass visible).rocket_list =
        rd.rocket_list ++ (visible.take rd.total_rockets.toNat).map rd.launch_Rocket ∧
      (rd.launch_Pass visible).total_rockets = rd.total_rockets - visible.length ∧
      ((rd.launch_Pass visible).rocket_list.length : ℤ) =
        rd.rocket_list.length + max 0 (min (visible.length : ℤ) rd.total_rockets) ∧
      ((visible.take rd.total_rockets.toNat).map rd.launch_Rocket).map Rocket.destination =
        (visible.take rd.total_rockets.toNat).map PieceRef.position ∧
      (rdC5.launch_Pass [tgtA, tgtB]).rocket_list.length = 1 ∧
      (rdC5.launch_Pass [tgtA, tgtB]).total_rockets = -1 := by
  refine ⟨launch_Pass_list rd visible, launch_Pass_total rd visible, ?_, ?_, ?_, ?_⟩
  · rw [launch_Pass_list rd visible]
    rw [List.length_append, List.length_map, List.length_take]
    push_cast
    omega
  · rw [List.map_map]
    rfl
  · rw [launch_Pass_list rdC5 [tgtA, tgtB]]
    simp [rdC5, mk_Radar]
  · rw [launch_Pass_total rdC5 [tgtA, tgtB]]
    simp [rdC5, mk_Radar]

/-- Claim C10: every rocket a radar's launch loop appends carries the
radar's own `piece_id` (ids are shared, not unique), and its collision scan
filter therefore never selects any piece with that id — in particular never
the launching Ship/Radar. -/
theorem rocket_skips_launcher (rd : Radar) (visible pieces : List PieceRef)
    (p : PieceRef) (rk : Rocket)
    (hrk : rk ∈ (rd.launch_Pass visible).rocket_list) (hnew : rk ∉ rd.rocket_list)
    (hp : p ∈ pieces) (hpid : p.piece_id = rd.piece_id) :
    rk.piece_id = rd.piece_id ∧ p ∉ rk.checked_Targets pieces := by
  rw [launch_Pass_list rd visible] at hrk
  rcases List.mem_append.mp hrk with hL | hR
  · exact absurd hL hnew
  · obtain ⟨t, -, ht⟩ := List.mem_map.mp hR
    have hid : rk.piece_id = rd.piece_id := by rw [← ht]; rfl
    refine ⟨hid, ?_⟩
    intro hmem
    unfold Rocket.checked_Targets at hmem
    rw [List.mem_filter] at hmem
    have hne : p.piece_id ≠ rk.piece_id := by simpa using hmem.2
    exact hne (by rw [hpid, hid])

/-- Witness for C10: the radar `rdC10` (id 7) fires at `tgtC10`; the
resulting rocket has id 7 and its collision scan skips the launcher (also
id 7) among the world's pieces. -/
theorem rocket_skips_launcher_witness :
    (rdC10.launch_Rocket tgtC10).piece_id = rdC10.piece_id ∧
      launcherC10 ∉ (rdC10.launch_Rocket tgtC10).checked_Targets [launcherC10, tgtC10] :=
  rocket_skips_launcher rdC10 [tgtC10] [launcherC10, tgtC10] launcherC10
    (rdC10.launch_Rocket tgtC10)
    (by rw [launch_Pass_list]; simp [rdC10, mk_Radar])
    (by simp [rdC10, mk_Radar])
    (by simp)
    rfl

/-- Every rocket the program constructs (radar defaults plus a move order)
satisfies the fuel invariant `RInv`: `1 = 1/10 + 900 * (1/1000)`. -/
theorem rinv_mk (id : ℤ) (pos sp dest : Vec3 ℚ) :
    RInv ((mk_Rocket id pos sp).move_Order dest) := by
  refine ⟨rfl, rfl, 900, ?_⟩
  norm_num [mk_Rocket, Rocket.move_Order]

/-- Under the invariant the fatal fuel precondition holds. -/
theorem rinv_pre {rk : Rocket} (h : RInv rk) :
    0 < rk.mass_flow_rate ∧ rk.mass_flow_rate < rk.mass := by
  obtain ⟨hf, hr, k, hm⟩ := h
  have hk : (0 : ℚ) ≤ (k : ℚ) := by positivity
  constructor
  · rw [hr]; norm_num
  · rw [hr, hm]; linarith

/-- Under the invariant the mass is at least the dry mass. -/
theorem rinv_mass_le {rk : Rocket} (h : RInv rk) : rk.final_mass ≤ rk.mass := by
  obtain ⟨hf, hr, k, hm⟩ := h
  have hk : (0 : ℚ) ≤ (k : ℚ) := by positivity
  rw [hf, hm]; linarith

/-- One successful `new_Position` step preserves the invariant and never
increases the mass. -/
theorem rocket_step_inv {rk rk' : Rocket} (h : RInv rk)
    (hs : rk.new_Position = some rk') :
    RInv rk' ∧ rk'.mass ≤ rk.mass := by
  obtain ⟨hf, hr, k, hm⟩ := h
  have hpre := rinv_pre ⟨hf, hr, k, hm⟩
  unfold Rocket.new_Position at hs
  dsimp only at hs
  rw [if_pos hpre] at hs
  rw [Option.some.injEq] at hs
  subst hs
  split_ifs with h1 h2 h3
  · -- burn branch: the mass decreases by one flow-rate quantum
    dsimp only
    rcases k with _ | k0
    · exfalso
      rw [hf, hm] at h3
      norm_num at h3
    · refine ⟨⟨hf, hr, k0, ?_⟩, ?_⟩
      · rw [hr, hm]; push_cast; ring
      · rw [hr]; linarith
  · exact ⟨⟨hf, hr, k, hm⟩, le_refl _⟩
  · exact ⟨⟨hf, hr, k, hm⟩, le_refl _⟩
  · exact ⟨⟨hf, hr, k, hm⟩, le_refl _⟩

/-- Once the mass is no longer strictly above the dry mass, a step changes
nothing but the ballistic position integration. -/
theorem rocket_step_terminal {rk : Rocket} (h : RInv rk)
    (hm : rk.mass ≤ rk.final_mass) :
    rk.new_Position = some { rk with position := add3 rk.position rk.speed } := by
  have hpre := rinv_pre h
  unfold Rocket.new_Position
  dsimp only
  rw [if_pos hpre]
  split_ifs with h1 h2 h3
  · exact absurd h3 (not_lt.mpr hm)
  · rfl
  · rfl
  · rfl

/-- Iterated updates preserve the invariant; the mass never increases. -/
theorem rocket_updates_inv (pieces : List PieceRef) (n : ℕ) {rk rn : Rocket}
    (h : RInv rk) (hu : Rocket.updates pieces n rk = some rn) :
    RInv rn ∧ rn.mass ≤ rk.mass := by
  induction n generalizing rk with
  | zero =>
      unfold Rocket.updates at hu
      rw [Option.some.injEq] at hu
      subst hu
      exact ⟨h, le_refl _⟩
  | succ n ih =>
      unfold Rocket.updates at hu
      cases hstep : rk.update pieces with
      | none => rw [hstep] at hu; simp at hu
      | some r1 =>
          rw [hstep] at hu
          obtain ⟨hinv1, hle1⟩ := rocket_step_inv ⟨h.1, h.2.1, h.2.2⟩ hstep
          obtain ⟨hinvn, hlen⟩ := ih hinv1 hu
          exact ⟨hinvn, le_trans hlen hle1⟩

/-- Splitting an iterated update. -/
theorem rocket_updates_split (pieces : List PieceRef) (a b : ℕ) (rk : Rocket) :
    Rocket.updates pieces (a + b) rk =
      (Rocket.updates pieces a rk).bind (Rocket.updates pieces b) := by
  induction a generalizing rk with
  | zero => rw [Nat.zero_add]; rfl
  | succ a ih =>
      have hra : a + 1 + b = (a + b) + 1 := by omega
      rw [hra]
      show (rk.update pieces).bind (Rocket.updates pieces (a + b)) =
        ((rk.update pieces).bind (Rocket.updates pieces a)).bind (Rocket.updates pieces b)
      cases hstep : rk.update pieces with
      | none => rfl
      | some r1 => exact ih r1

/-- Claim C6: along any sequence of successful updates of a
radar-constructed Projectile, the mass is non-increasing and never falls
below the dry mass, and once the mass is no longer strictly above the dry
mass an update leaves speed and mass untouched while the position keeps
integrating ballistically. -/
theorem rocket_mass_invariant (id : ℤ) (pos sp dest : Vec3 ℚ) (pieces : List PieceRef)
    (n m : ℕ) (rn rm : Rocket) (hnm : n ≤ m)
    (hn : Rocket.updates pieces n ((mk_Rocket id pos sp).move_Order dest) = some rn)
    (hm : Rocket.updates pieces m ((mk_Rocket id pos sp).move_Order dest) = some rm) :
    rm.mass ≤ rn.mass ∧ rm.final_mass ≤ rm.mass ∧
      (rm.mass ≤ rm.final_mass →
        Rocket.update rm pieces = some { rm with position := add3 rm.position rm.speed }) := by
  have h0 : RInv ((mk_Rocket id pos sp).move_Order dest) := rinv_mk id pos sp dest
  obtain ⟨hinvn, -⟩ := rocket_updates_inv pieces n h0 hn
  have hmsplit : Rocket.updates pieces m ((mk_Rocket id pos sp).move_Order dest) =
      (Rocket.updates pieces n ((mk_Rocket id pos sp).move_Order dest)).bind
        (Rocket.updates pieces (m - n)) := by
    rw [← rocket_updates_split]
    congr 1
    omega
  rw [hmsplit, hn] at hm
  obtain ⟨hinvm, hlem⟩ := rocket_updates_inv pieces (m - n) hinvn hm
  exact ⟨hlem, rinv_mass_le hinvm, fun hterm => rocket_step_terminal hinvm hterm⟩

/-- One concrete update of the radar-constructed rocket `rkC6`: the assert
passes, the rocket burns one flow-rate quantum and integrates its
position. -/
theorem rkC6_step : Rocket.update rkC6 [] = some rkC6' := by
  unfold Rocket.update Rocket.new_Position rkC6 mk_Rocket Rocket.move_Order rkC6'
  norm_num [sub3, absSum3, smul3, add3]

/-- Witness for C6 at the concrete rocket `rkC6`, `n = 0`, `m = 1`. -/
theorem rocket_mass_invariant_witness :
    rkC6'.mass ≤ rkC6.mass ∧ rkC6'.final_mass ≤ rkC6'.mass ∧
      (rkC6'.mass ≤ rkC6'.final_mass →
        Rocket.update rkC6' [] = some { rkC6' with position := add3 rkC6'.position rkC6'.speed }) :=
  rocket_mass_invariant 0 (0, 0, 0) (0, 0, 0) (1, 0, 0) [] 0 1 rkC6 rkC6'
    (by omega) rfl
    (by show (Rocket.update rkC6 []).bind (Rocket.updates [] 0) = some rkC6'
        rw [rkC6_step]
        rfl)
